import Mathlib

/-!
Verification of the flood-prediction core: a shallow embedding of the
hydrological simulator (`river_level_crawler.py`), the risk-label rule
engine and trainer/predictor guards (`predictor.py`), and the alert-level
mapper (`flood_prediction_gui.py`).

Numbers are modelled over `ℚ`.  Every call to the runtime random number
generator (`np.random.uniform`, `np.random.exponential`,
`np.random.random`, `np.random.choice`) and every read of the wall clock
(`datetime.now`, `math.sin` of the time of day) is modelled as an explicit
input value; the predicate `SimDraws.Valid` records the range each drawn
value is guaranteed to lie in by its distribution.  Python's
`round(x, 2)` / `round(x, 3)` are modelled by `round2` / `round3`
(rounding to the nearest multiple of 1/100 resp. 1/1000; the tie-breaking
rule is irrelevant to every statement proved here).  The `flow_rate`
output (lines 612-620 of `river_level_crawler.py`, a non-rational power
`ratio ** 1.5`) is not modelled: no claim refers to it.
-/

/-- One row of the `RIVER_STATIONS` configuration table
(`river_level_crawler.py`, lines 10-116). -/
structure StationConfig where
  normal_level : ℚ
  alert_level_1 : ℚ
  alert_level_2 : ℚ
  alert_level_3 : ℚ
  base_flow_rate : ℚ
  seasonal_factor : ℚ
  tidal_effect : Bool
  dam_controlled : Bool
  volatility : ℚ
deriving DecidableEq, Repr

/-- A resolved weather sample, as produced by `get_latest_weather_data` and
passed (after the `safe_weather_data` float coercion of lines 548-557) to
`get_weather_impact_advanced`.  The `temperature` field is unused by the
simulator and omitted. -/
structure WeatherData where
  rainfall_1h : ℚ
  rainfall_3h : ℚ
  humidity : ℚ
  pressure : ℚ
  wind_speed : ℚ
deriving DecidableEq, Repr

/-- The `trend` column of a river-level record. -/
inductive Trend where
  | rising
  | falling
  | stable
deriving DecidableEq, Repr

/-- `get_seasonal_factor` (lines 230-250): a month-of-year base factor
times a uniform(0.9, 1.1) draw `random_factor`. -/
def get_seasonal_factor (month : ℕ) (random_factor : ℚ) : ℚ :=
  let base_factor : ℚ :=
    if 5 ≤ month ∧ month ≤ 10 then
      if 7 ≤ month ∧ month ≤ 9 then 3/2 else 13/10
    else
      if 2 ≤ month ∧ month ≤ 4 then 3/5 else 4/5
  base_factor * random_factor

/-- The `hour_factors` lookup table of `get_daily_cycle_factor`
(lines 259-266), with the `.get(current_hour, 1.0)` default. -/
def hour_factor (hour : ℕ) : ℚ :=
  match hour with
  | 0 => 19/20 | 1 => 9/10 | 2 => 17/20 | 3 => 22/25 | 4 => 23/25 | 5 => 49/50
  | 6 => 21/20 | 7 => 27/25 | 8 => 103/100 | 9 => 1 | 10 => 49/50 | 11 => 19/20
  | 12 => 9/10 | 13 => 22/25 | 14 => 23/25 | 15 => 19/20 | 16 => 49/50 | 17 => 51/50
  | 18 => 53/50 | 19 => 26/25 | 20 => 1 | 21 => 49/50 | 22 => 24/25 | 23 => 47/50
  | _ => 1

/-- `get_daily_cycle_factor` (lines 252-270): the hour lookup times a
uniform(0.98, 1.02) draw `random_variation`. -/
def get_daily_cycle_factor (hour : ℕ) (random_variation : ℚ) : ℚ :=
  hour_factor hour * random_variation

/-- The drawn/clock values consumed by `get_tidal_effect`:
`tidal_cycle` is `sin(2π · hours_from_midnight / 12.5)` (a clock-dependent
value in [-1, 1]), `tidal_amplitude` is uniform(5, 15), `random_tidal`
is uniform(0.8, 1.2). -/
structure TidalDraws where
  tidal_cycle : ℚ
  tidal_amplitude : ℚ
  random_tidal : ℚ
deriving DecidableEq, Repr

/-- `get_tidal_effect` (lines 272-292). -/
def get_tidal_effect (station : StationConfig) (d : TidalDraws) : ℚ :=
  if station.tidal_effect = false then 1
  else
    let tidal_effect :=
      1 + (d.tidal_cycle * d.tidal_amplitude * d.random_tidal) / station.normal_level
    max (4/5) (min (6/5) tidal_effect)

/-- The drawn values consumed by the no-weather branch of
`get_weather_impact_advanced` (lines 296-310): `season_factor` is the
result of its internal `get_seasonal_factor()` call, `exp_draw` the
`np.random.exponential` draw, `unif1` / `rain3_mult` the uniform
multipliers for `rainfall_1h` / `rainfall_3h`, and `humidity`,
`pressure`, `wind_speed` the synthesized weather values. -/
structure SynthWeatherDraws where
  season_factor : ℚ
  exp_draw : ℚ
  unif1 : ℚ
  rain3_mult : ℚ
  humidity : ℚ
  pressure : ℚ
  wind_speed : ℚ
deriving DecidableEq, Repr

/-- Lines 318-360 of `get_weather_impact_advanced`: the tiered rain
impact, the 3-hour accumulation term, and the humidity / pressure /
wind multipliers, applied to already-resolved weather values. -/
def weather_impact_core (rainfall_1h rainfall_3h humidity pressure wind_speed : ℚ) : ℚ :=
  let rain_impact : ℚ := 0
  let rain_impact :=
    if rainfall_1h > 0 then
      if rainfall_1h > 20 then rain_impact + rainfall_1h * 2
      else if rainfall_1h > 10 then rain_impact + rainfall_1h * (3/2)
      else if rainfall_1h > 5 then rain_impact + rainfall_1h * (6/5)
      else rain_impact + rainfall_1h * 1
    else rain_impact
  let rain_impact :=
    if rainfall_3h > rainfall_1h then rain_impact + (rainfall_3h - rainfall_1h) * (7/10)
    else rain_impact
  let rain_impact :=
    if humidity > 90 then rain_impact * (6/5)
    else if humidity > 80 then rain_impact * (11/10)
    else if humidity < 50 then rain_impact * (4/5)
    else rain_impact
  let rain_impact :=
    if pressure < 990 then rain_impact * (7/5)
    else if pressure < 1000 then rain_impact * (6/5)
    else if pressure < 1005 then rain_impact * (11/10)
    else if pressure > 1020 then rain_impact * (9/10)
    else rain_impact
  let rain_impact :=
    if wind_speed > 40 then rain_impact * (19/20)
    else if wind_speed > 25 then rain_impact * (97/100)
    else if wind_speed < 5 then rain_impact * (21/20)
    else rain_impact
  rain_impact

/-- `get_weather_impact_advanced` (lines 294-360).  When no weather
sample is supplied, the synthesized `rainfall_1h = exponential · uniform`
and `rainfall_3h = rainfall_1h · uniform` of lines 300-310 are built
from the modelled draws. -/
def get_weather_impact_advanced (weather_data : Option WeatherData)
    (station : StationConfig) (d : SynthWeatherDraws) : ℚ :=
  match weather_data with
  | some w => weather_impact_core w.rainfall_1h w.rainfall_3h w.humidity w.pressure w.wind_speed
  | none =>
      let rainfall_1h := d.exp_draw * d.unif1
      let rainfall_3h := rainfall_1h * d.rain3_mult
      weather_impact_core rainfall_1h rainfall_3h d.humidity d.pressure d.wind_speed

/-- The drawn values consumed by `get_human_activities_impact`
(lines 362-389): each event flag is a `np.random.random() < p` draw and
each impact value a uniform draw (`dam_release` ∈ [20, 60],
`mining_impact` ∈ [-25, -10], `construction_impact` ∈ [-5, 15]). -/
structure HumanDraws where
  dam_event : Bool
  dam_release : ℚ
  mining_event : Bool
  mining_impact : ℚ
  construction_event : Bool
  construction_impact : ℚ
deriving DecidableEq, Repr

/-- `get_human_activities_impact` (lines 362-389). -/
def get_human_activities_impact (station : StationConfig) (d : HumanDraws) : ℚ :=
  let impact : ℚ := 0
  let impact := if station.dam_controlled ∧ d.dam_event then impact + d.dam_release else impact
  let impact := if d.mining_event then impact + d.mining_impact else impact
  let impact := if d.construction_event then impact + d.construction_impact else impact
  impact

/-- The drawn values consumed by `get_geological_factors`
(lines 391-405): `erosion_impact` ∈ [8, 20], `sedimentation` ∈ [-2, 3]. -/
structure GeoDraws where
  erosion_event : Bool
  erosion_impact : ℚ
  sedimentation : ℚ
deriving DecidableEq, Repr

/-- `get_geological_factors` (lines 391-405). -/
def get_geological_factors (station : StationConfig) (d : GeoDraws) : ℚ :=
  let impact : ℚ := 0
  let impact := if d.erosion_event then impact + d.erosion_impact else impact
  let impact := impact + d.sedimentation
  impact

/-- The uniform range the `natural_decline` draw of
`calculate_natural_flow_change` (lines 407-430) is taken from, selected
by the tier of `level_ratio = prev_level / normal_level`. -/
def natural_decline_range (prev_level : ℚ) (station : StationConfig) : ℚ × ℚ :=
  let level_ratio := prev_level / station.normal_level
  if level_ratio > 2 then (5, 10)
  else if level_ratio > 3/2 then (4, 8)
  else if level_ratio > 6/5 then (2, 6)
  else if level_ratio > 4/5 then (1, 4)
  else (1/2, 2)

/-- `calculate_natural_flow_change` (lines 407-430): the tier-selected
`natural_decline` draw times the volatility factor
`1 + uniform(-volatility/2, volatility/2)`. -/
def calculate_natural_flow_change (prev_level : ℚ) (station : StationConfig)
    (natural_decline volatility_noise : ℚ) : ℚ :=
  natural_decline * (1 + volatility_noise)

/-- All drawn/clock values consumed by one `simulate_river_level` call
(for the branch where a previous record exists). -/
structure SimDraws where
  weather : SynthWeatherDraws
  month : ℕ
  seasonal_random : ℚ
  hour : ℕ
  daily_random : ℚ
  tidal : TidalDraws
  human : HumanDraws
  geo : GeoDraws
  natural_decline : ℚ
  volatility_noise : ℚ
  momentum : ℚ
  measurement_noise : ℚ
deriving DecidableEq, Repr

/-- Each drawn value of a `SimDraws` lies in the range its distribution in
the source guarantees (`np.random.uniform(a, b)` yields values in [a, b],
`np.random.exponential` nonnegative values, `sin` values in [-1, 1]).
The `natural_decline` range is the tier selected by
`calculate_natural_flow_change` from the previous level, and the
`momentum` range is the one selected by the previous trend
(lines 575-579). -/
def SimDraws.Valid (station : StationConfig) (prev_level : ℚ) (prev_trend : Trend)
    (d : SimDraws) : Prop :=
  (0 ≤ d.weather.exp_draw ∧
    (if d.weather.season_factor > 6/5 then
      (1/2 ≤ d.weather.unif1 ∧ d.weather.unif1 ≤ 2) ∧
      (2 ≤ d.weather.rain3_mult ∧ d.weather.rain3_mult ≤ 4) ∧
      (75 ≤ d.weather.humidity ∧ d.weather.humidity ≤ 95) ∧
      (995 ≤ d.weather.pressure ∧ d.weather.pressure ≤ 1010)
    else
      (0 ≤ d.weather.unif1 ∧ d.weather.unif1 ≤ 3/2) ∧
      (1 ≤ d.weather.rain3_mult ∧ d.weather.rain3_mult ≤ 5/2) ∧
      (50 ≤ d.weather.humidity ∧ d.weather.humidity ≤ 75) ∧
      (1010 ≤ d.weather.pressure ∧ d.weather.pressure ≤ 1025)) ∧
    (5 ≤ d.weather.wind_speed ∧ d.weather.wind_speed ≤ 25)) ∧
  (9/10 ≤ d.seasonal_random ∧ d.seasonal_random ≤ 11/10) ∧
  (49/50 ≤ d.daily_random ∧ d.daily_random ≤ 51/50) ∧
  (-1 ≤ d.tidal.tidal_cycle ∧ d.tidal.tidal_cycle ≤ 1) ∧
  (5 ≤ d.tidal.tidal_amplitude ∧ d.tidal.tidal_amplitude ≤ 15) ∧
  (4/5 ≤ d.tidal.random_tidal ∧ d.tidal.random_tidal ≤ 6/5) ∧
  (20 ≤ d.human.dam_release ∧ d.human.dam_release ≤ 60) ∧
  (-25 ≤ d.human.mining_impact ∧ d.human.mining_impact ≤ -10) ∧
  (-5 ≤ d.human.construction_impact ∧ d.human.construction_impact ≤ 15) ∧
  (8 ≤ d.geo.erosion_impact ∧ d.geo.erosion_impact ≤ 20) ∧
  (-2 ≤ d.geo.sedimentation ∧ d.geo.sedimentation ≤ 3) ∧
  ((natural_decline_range prev_level station).1 ≤ d.natural_decline ∧
    d.natural_decline ≤ (natural_decline_range prev_level station).2) ∧
  (-(station.volatility / 2) ≤ d.volatility_noise ∧
    d.volatility_noise ≤ station.volatility / 2) ∧
  (prev_trend = .rising → 1 ≤ d.momentum ∧ d.momentum ≤ 4) ∧
  (prev_trend = .falling → -4 ≤ d.momentum ∧ d.momentum ≤ -1) ∧
  (-1 ≤ d.measurement_noise ∧ d.measurement_noise ≤ 1)

instance (station : StationConfig) (prev_level : ℚ) (prev_trend : Trend) (d : SimDraws) :
    Decidable (SimDraws.Valid station prev_level prev_trend d) := by
  unfold SimDraws.Valid
  exact inferInstance

/-- The unclamped single-step delta `total_change` of `simulate_river_level`
(lines 547-583): the sum of all impact terms before the smoothing cap,
the measurement noise and the bounds clamp. -/
def sim_total_change (station : StationConfig) (prev_level : ℚ) (prev_trend : Trend)
    (weather_data : Option WeatherData) (d : SimDraws) : ℚ :=
  let weather_impact := get_weather_impact_advanced weather_data station d.weather
  let seasonal_factor := get_seasonal_factor d.month d.seasonal_random
  let seasonal_impact := (seasonal_factor - 1) * station.normal_level * (3/20)
  let daily_cycle := get_daily_cycle_factor d.hour d.daily_random
  let daily_impact := (daily_cycle - 1) * station.normal_level * (1/20)
  let tidal_factor := get_tidal_effect station d.tidal
  let tidal_impact := (tidal_factor - 1) * station.normal_level * (1/2)
  let human_impact := get_human_activities_impact station d.human
  let geological_impact := get_geological_factors station d.geo
  let natural_decline :=
    calculate_natural_flow_change prev_level station d.natural_decline d.volatility_noise
  let momentum_impact : ℚ :=
    match prev_trend with
    | .rising => d.momentum
    | .falling => d.momentum
    | .stable => 0
  weather_impact + seasonal_impact + daily_impact + tidal_impact + human_impact +
    geological_impact + momentum_impact - natural_decline

/-- The smoothing cap of lines 585-589: the magnitude of `total_change` is
limited to `max_change = 8` cm per crawl. -/
def sim_smoothed_change (total_change : ℚ) : ℚ :=
  if |total_change| > 8 then (if total_change > 0 then 8 else -8) else total_change

/-- The new water level of lines 591-601: previous level plus the smoothed
change plus measurement noise, clamped into
`[0.3 · normal_level, 1.2 · alert_level_3]`. -/
def sim_new_level (station : StationConfig) (prev_level : ℚ) (prev_trend : Trend)
    (weather_data : Option WeatherData) (d : SimDraws) : ℚ :=
  let total_change := sim_smoothed_change (sim_total_change station prev_level prev_trend weather_data d)
  let new_level := prev_level + total_change
  let new_level := new_level + d.measurement_noise
  let min_level := station.normal_level * (3/10)
  let max_level := station.alert_level_3 * (6/5)
  max min_level (min new_level max_level)

/-- `level_change` of line 604: the clamped delta, i.e. the new water level
minus the previous one. -/
def sim_level_change (station : StationConfig) (prev_level : ℚ) (prev_trend : Trend)
    (weather_data : Option WeatherData) (d : SimDraws) : ℚ :=
  sim_new_level station prev_level prev_trend weather_data d - prev_level

/-- The trend decision of lines 604-610, applied to `level_change`. -/
def sim_trend (station : StationConfig) (prev_level : ℚ) (prev_trend : Trend)
    (weather_data : Option WeatherData) (d : SimDraws) : Trend :=
  let level_change := sim_level_change station prev_level prev_trend weather_data d
  if level_change > 2 then .rising
  else if level_change < -2 then .falling
  else .stable

/-- Python `round(x, 2)`: round to the nearest multiple of 1/100. -/
def round2 (x : ℚ) : ℚ := round (100 * x) / 100

/-- Python `round(x, 3)`: round to the nearest multiple of 1/1000. -/
def round3 (x : ℚ) : ℚ := round (1000 * x) / 1000

/-- The record returned by `simulate_river_level` (lines 625-633), minus
the unmodelled `flow_rate` field. -/
structure RiverRecord where
  water_level : ℚ
  trend : Trend
  weather_impact : ℚ
  level_change : ℚ
  seasonal_factor : ℚ
  tidal_factor : ℚ
deriving DecidableEq, Repr

/-- `simulate_river_level` (lines 531-633) for one simulated transition:
the previous persisted record `(prev_level, prev_trend)` exists and is
given, the weather sample is `weather_data` (possibly absent), and all
random/clock values are the fields of `d`. -/
def simulate_river_level (station : StationConfig) (prev_level : ℚ) (prev_trend : Trend)
    (weather_data : Option WeatherData) (d : SimDraws) : RiverRecord :=
  { water_level := round2 (sim_new_level station prev_level prev_trend weather_data d)
    trend := sim_trend station prev_level prev_trend weather_data d
    weather_impact := round2 (get_weather_impact_advanced weather_data station d.weather)
    level_change := round2 (sim_level_change station prev_level prev_trend weather_data d)
    seasonal_factor := round3 (get_seasonal_factor d.month d.seasonal_random)
    tidal_factor :=
      if station.tidal_effect then round3 (get_tidal_effect station d.tidal) else 1 }

/-- One input row of `create_flood_labels` (`predictor.py`) in the
advanced mode, i.e. with the hydrological columns present.  Only the
columns the rule engine reads are listed. -/
structure FeatureRow where
  rainfall_1h : ℚ
  rainfall_3h : ℚ
  humidity : ℚ
  pressure : ℚ
  alert_level_exceeded : ℚ
  water_level_ratio : ℚ
  trend_rising : ℚ
deriving DecidableEq, Repr

/-- `high_conditions` of `create_flood_labels` (`predictor.py`,
lines 291-298). -/
def high_conditions (r : FeatureRow) : Prop :=
  r.rainfall_1h > 20 ∨
  r.rainfall_3h > 45 ∨
  r.alert_level_exceeded ≥ 3 ∨
  (r.water_level_ratio > 3/2 ∧ r.trend_rising = 1) ∨
  (r.rainfall_1h > 15 ∧ r.alert_level_exceeded ≥ 2) ∨
  (r.humidity > 90 ∧ r.pressure < 1000 ∧ r.rainfall_1h > 10)

instance (r : FeatureRow) : Decidable ( high_conditions r) := by
  unfold high_conditions; exact inferInstance

/-- `moderate_conditions` of `create_flood_labels` (`predictor.py`,
lines 301-309). -/
def moderate_conditions (r : FeatureRow) : Prop :=
  (r.rainfall_1h > 10 ∧ r.rainfall_1h ≤ 20) ∨
  (r.rainfall_3h > 25 ∧ r.rainfall_3h ≤ 45) ∨
  r.alert_level_exceeded = 2 ∨
  (r.alert_level_exceeded = 1 ∧ r.trend_rising = 1) ∨
  (r.water_level_ratio > 6/5 ∧ r.water_level_ratio ≤ 3/2) ∨
  (r.humidity > 85 ∧ r.rainfall_1h > 5) ∨
  (r.pressure < 1005 ∧ r.rainfall_1h > 8)

instance (r : FeatureRow) : Decidable ( moderate_conditions r) := by
  unfold moderate_conditions; exact inferInstance

/-- The advanced branch of `create_flood_labels` (`predictor.py`,
lines 286-313) for a single row: the label starts at 0 (LOW), rows
matching `high_conditions` are set to 2 (HIGH), and rows matching
`moderate_conditions` whose label is not already 2 are set to
1 (MODERATE). -/
def create_flood_labels (r : FeatureRow) : ℕ :=
  let label : ℕ := 0
  let label := if high_conditions r then 2 else label
  let label := if moderate_conditions r ∧ label ≠ 2 then 1 else label
  label

/-- An already-fitted classifier, as returned by the scikit-learn
`RandomForestClassifier` calls the core delegates to: an opaque pair of
prediction functions. -/
structure MLModel where
  predict : List ℚ → ℕ
  predict_proba : List ℚ → List ℚ

/-- `train_model` (`predictor.py`, lines 339-451).  The corpus is the
list of rows; everything after the insufficient-data guard of
lines 341-343 (feature selection, split, scikit-learn fitting,
evaluation) is an external-library computation modelled by the abstract
`fit` argument, which may itself fail (the `except` branch of
lines 449-451 also returns the `None` sentinel). -/
def train_model (fit : List FeatureRow → Option MLModel)
    (df : List FeatureRow) : Option MLModel :=
  if df.length < 10 then none else fit df

/-- The prediction payload assembled by `predict_flood_risk`
(`predictor.py`, lines 466-494), reduced to the fields the claims
mention. -/
structure PredictionOutput where
  risk_numeric : ℕ
  probabilities : List ℚ
  confidence : ℚ

/-- `predict_flood_risk` (`predictor.py`, lines 453-498): with a missing
(`None`) model it returns `None` at once (lines 455-456); otherwise it
queries the model for a class and a probability vector and reports the
maximal probability as the confidence. -/
def predict_flood_risk (model : Option MLModel) (features : List String)
    (weather_data : List ℚ) (is_advanced : Bool) : Option PredictionOutput :=
  match model with
  | none => none
  | some m =>
      let prediction := m.predict weather_data
      let probabilities := m.predict_proba weather_data
      some { risk_numeric := prediction
             probabilities := probabilities
             confidence := probabilities.foldr max 0 }

/-- `calculate_alert_level_numeric` (`flood_prediction_gui.py`,
lines 895-912): the fixed-threshold base level, the risk-level shift,
and the final clamp into [1, 3]. -/
def calculate_alert_level_numeric (water_level : ℚ) (risk_level : String) : ℤ :=
  let base_level : ℤ := if water_level < 180 then 1 else if water_level < 220 then 2 else 3
  let base_level :=
    if risk_level = "HIGH" ∧ base_level < 3 then base_level + 1
    else if risk_level = "LOW" ∧ base_level > 1 then base_level - 1
    else base_level
  max 1 (min 3 base_level)

/-- Spec-side restatement of the alert-level mapper, following the
claim's words: base level 1/2/3 by the fixed 180/220 thresholds, plus 1
when the risk level is HIGH and the base level is not already 3, minus 1
when the risk level is LOW and the base level is not already 1, clamped
into [1, 3]. -/
def alert_level_claimed (water_level : ℚ) (risk_level : String) : ℤ :=
  let base : ℤ := if water_level < 180 then 1 else if water_level < 220 then 2 else 3
  let shifted :=
    if risk_level = "HIGH" ∧ base ≠ 3 then base + 1
    else if risk_level = "LOW" ∧ base ≠ 1 then base - 1
    else base
  max 1 (min 3 shifted)

/-- The Hue entry of `RIVER_STATIONS` (`river_level_crawler.py`,
lines 56-70). -/
def hueStation : StationConfig :=
  { normal_level := 100, alert_level_1 := 150, alert_level_2 := 200, alert_level_3 := 250,
    base_flow_rate := 400, seasonal_factor := 11/10, tidal_effect := false,
    dam_controlled := false, volatility := 9/100 }

/-- The Ho Chi Minh City entry of `RIVER_STATIONS` (lines 26-40), a tidal
station. -/
def hcmStation : StationConfig :=
  { normal_level := 120, alert_level_1 := 180, alert_level_2 := 220, alert_level_3 := 270,
    base_flow_rate := 800, seasonal_factor := 7/5, tidal_effect := true,
    dam_controlled := false, volatility := 3/25 }

/-- A weather sample with no rain at all. -/
def zeroWeather : WeatherData :=
  { rainfall_1h := 0, rainfall_3h := 0, humidity := 70, pressure := 1013, wind_speed := 10 }

/-- A weather sample with 3.5 mm of rain in the last hour. -/
def lightRainWeather : WeatherData :=
  { rainfall_1h := 7/2, rainfall_3h := 0, humidity := 70, pressure := 1013, wind_speed := 10 }

/-- A quiet draw vector: no random events, all uniform draws at
mid-range or at a convenient in-range value. -/
def calmDraws : SimDraws :=
  { weather := { season_factor := 1, exp_draw := 0, unif1 := 1, rain3_mult := 2,
                 humidity := 70, pressure := 1013, wind_speed := 10 }
    month := 1, seasonal_random := 1, hour := 9, daily_random := 1
    tidal := { tidal_cycle := 0, tidal_amplitude := 10, random_tidal := 1 }
    human := { dam_event := false, dam_release := 30, mining_event := false,
               mining_impact := -15, construction_event := false, construction_impact := 0 }
    geo := { erosion_event := false, erosion_impact := 10, sedimentation := 0 }
    natural_decline := 1, volatility_noise := 0, momentum := 2, measurement_noise := 0 }

/-- A draw vector that realizes an unclamped delta of 2.5 cm together
with a measurement noise of -1 cm (used against `lightRainWeather`). -/
def trendGapDraws : SimDraws :=
  { calmDraws with
    geo := { erosion_event := false, erosion_impact := 10, sedimentation := 3 }
    measurement_noise := -1 }

/-- A station configuration with positive but degenerate levels: the
lower bound `0.3 · normal_level = 0.021` is not a multiple of 0.01. -/
def tinyStation : StationConfig :=
  { normal_level := 7/100, alert_level_1 := 5, alert_level_2 := 8, alert_level_3 := 10,
    base_flow_rate := 400, seasonal_factor := 1, tidal_effect := false,
    dam_controlled := false, volatility := 1/10 }

/-- A draw vector driving the level against the lower clamp of
`tinyStation`. -/
def sinkDraws : SimDraws :=
  { calmDraws with natural_decline := 2 }

/-! ## Helper lemmas -/

/-- Rounding to two decimals is monotone. -/
theorem round2_mono {x y : ℚ} (h : x ≤ y) : round2 x ≤ round2 y := by
  unfold round2
  have h1 : round (100 * x) ≤ round (100 * y) := by
    rw [round_eq, round_eq]
    exact Int.floor_le_floor (by linarith)
  have h2 : ((round (100 * x) : ℤ) : ℚ) ≤ ((round (100 * y) : ℤ) : ℚ) := by exact_mod_cast h1
  linarith

/-- A multiple of one tenth is unchanged by rounding to two decimals. -/
theorem round2_nat_div_ten (k : ℕ) : round2 ((k : ℚ) / 10) = (k : ℚ) / 10 := by
  unfold round2
  have h : (100 : ℚ) * ((k : ℚ) / 10) = ((10 * k : ℕ) : ℚ) := by push_cast; ring
  rw [h, round_natCast]
  push_cast; ring

/-- An integer is unchanged by rounding to two decimals. -/
theorem round2_int (k : ℤ) : round2 (k : ℚ) = k := by
  unfold round2
  have h : (100 : ℚ) * (k : ℚ) = ((100 * k : ℤ) : ℚ) := by push_cast; ring
  rw [h, round_intCast]
  push_cast; ring

/-- The smoothing cap keeps the magnitude of the step at 8 cm or less. -/
theorem abs_sim_smoothed_le (t : ℚ) : |sim_smoothed_change t| ≤ 8 := by
  unfold sim_smoothed_change
  split_ifs with h1 h2
  · norm_num
  · norm_num
  · exact le_of_not_lt h1

/-- Clamping into an interval that contains `p` cannot move a point
further away from `p` than it already is. -/
theorem clamp_delta_bound {m M p s n : ℚ} (hm : m ≤ p) (hM : p ≤ M)
    (hs : |s| ≤ 8) (hn : |n| ≤ 1) :
    |max m (min (p + s + n) M) - p| ≤ 9 := by
  obtain ⟨hs1, hs2⟩ := abs_le.mp hs
  obtain ⟨hn1, hn2⟩ := abs_le.mp hn
  rw [abs_le]
  constructor
  · have h1 : p - 9 ≤ min (p + s + n) M := le_min (by linarith) (by linarith)
    have h2 : p - 9 ≤ max m (min (p + s + n) M) := le_trans h1 (le_max_right _ _)
    linarith
  · have h1 : min (p + s + n) M ≤ p + 9 := le_trans (min_le_left _ _) (by linarith)
    have h2 : max m (min (p + s + n) M) ≤ p + 9 := max_le (by linarith) h1
    linarith

/-- The clamp of `sim_new_level` enforces the lower bound always, and the
upper bound whenever the bounds are in the right order. -/
theorem sim_new_level_bounds (station : StationConfig) (prev_level : ℚ) (prev_trend : Trend)
    (weather_data : Option WeatherData) (d : SimDraws) :
    station.normal_level * (3/10) ≤ sim_new_level station prev_level prev_trend weather_data d ∧
    (station.normal_level * (3/10) ≤ station.alert_level_3 * (6/5) →
      sim_new_level station prev_level prev_trend weather_data d ≤ station.alert_level_3 * (6/5)) := by
  unfold sim_new_level
  exact ⟨le_max_left _ _, fun h => max_le h (min_le_right _ _)⟩

/-! ## Claim theorems -/

/-- C1, counterexample: with a station whose levels are all positive but
whose lower bound `0.3 · normal_level = 0.021` is finer than the
two-decimal output rounding, a legitimate transition (all draws inside
their distributions' ranges) produces a record whose `water_level`
(0.02) lies strictly below `0.3 · normal_level`. -/
theorem c1_bounds_counterexample :
    0 < tinyStation.normal_level ∧ 0 < tinyStation.alert_level_1 ∧
    0 < tinyStation.alert_level_2 ∧ 0 < tinyStation.alert_level_3 ∧
    SimDraws.Valid tinyStation (3/100) .stable sinkDraws ∧
    (simulate_river_level tinyStation (3/100) .stable (some zeroWeather) sinkDraws).water_level
      < 3/10 * tinyStation.normal_level := by
  refine ⟨by norm_num [tinyStation], by norm_num [tinyStation], by norm_num [tinyStation],
    by norm_num [tinyStation], ?_, ?_⟩
  · norm_num [SimDraws.Valid, natural_decline_range, tinyStation, sinkDraws, calmDraws]
    exact fun h => nomatch h
  · have hw : (simulate_river_level tinyStation (3/100) .stable (some zeroWeather)
        sinkDraws).water_level = 1/50 := by
      norm_num [simulate_river_level, sim_new_level, sim_total_change, sim_smoothed_change,
        round2, round_eq, abs, max_def, min_def, get_weather_impact_advanced,
        weather_impact_core, get_seasonal_factor, get_daily_cycle_factor, hour_factor,
        get_tidal_effect, get_human_activities_impact, get_geological_factors,
        calculate_natural_flow_change, tinyStation, zeroWeather, sinkDraws, calmDraws]
    rw [hw]
    norm_num [tinyStation]

/-- C1, amended: for every simulated transition of a station whose
`normal_level` and `alert_level_3` are positive integers (as all entries
of `RIVER_STATIONS` are) with `normal_level ≤ 4 · alert_level_3` (so that
the lower clamp bound does not exceed the upper one), the produced
record's `water_level` satisfies
`0.3 · normal_level ≤ water_level ≤ 1.2 · alert_level_3`. -/
theorem c1_bounds_amended (station : StationConfig) (nl a3 : ℕ)
    (hnl : station.normal_level = nl) (ha3 : station.alert_level_3 = a3)
    (hpos : 0 < nl) (hlevels : nl ≤ 4 * a3)
    (prev_level : ℚ) (prev_trend : Trend) (weather_data : Option WeatherData) (d : SimDraws) :
    3/10 * station.normal_level
      ≤ (simulate_river_level station prev_level prev_trend weather_data d).water_level ∧
    (simulate_river_level station prev_level prev_trend weather_data d).water_level
      ≤ 6/5 * station.alert_level_3 := by
  have hmM : station.normal_level * (3/10) ≤ station.alert_level_3 * (6/5) := by
    rw [hnl, ha3]
    have h4 : (nl : ℚ) ≤ 4 * (a3 : ℚ) := by exact_mod_cast hlevels
    linarith
  obtain ⟨hlo, hhi⟩ := sim_new_level_bounds station prev_level prev_trend weather_data d
  have hhi' := hhi hmM
  have h1 : round2 (station.normal_level * (3/10)) = station.normal_level * (3/10) := by
    rw [hnl]
    have e : (nl : ℚ) * (3/10) = ((3 * nl : ℕ) : ℚ) / 10 := by push_cast; ring
    rw [e, round2_nat_div_ten]
  have h2 : round2 (station.alert_level_3 * (6/5)) = station.alert_level_3 * (6/5) := by
    rw [ha3]
    have e : (a3 : ℚ) * (6/5) = ((12 * a3 : ℕ) : ℚ) / 10 := by push_cast; ring
    rw [e, round2_nat_div_ten]
  have hw : (simulate_river_level station prev_level prev_trend weather_data d).water_level
      = round2 (sim_new_level station prev_level prev_trend weather_data d) := rfl
  constructor
  · have := round2_mono hlo
    rw [h1] at this
    rw [hw]
    linarith
  · have := round2_mono hhi'
    rw [h2] at this
    rw [hw]
    linarith

/-- C1 witness: the amended bounds at a concrete transition of the
Ho Chi Minh City station. -/
theorem c1_bounds_witness :
    3/10 * hcmStation.normal_level
      ≤ (simulate_river_level hcmStation 150 .rising (some zeroWeather) calmDraws).water_level ∧
    (simulate_river_level hcmStation 150 .rising (some zeroWeather) calmDraws).water_level
      ≤ 6/5 * hcmStation.alert_level_3 :=
  c1_bounds_amended hcmStation 120 270 rfl rfl (by norm_num) (by norm_num)
    150 .rising (some zeroWeather) calmDraws

/-- C2, counterexample: a legitimate transition of the Hue station whose
unclamped delta (the sum of all impact terms before the smoothing cap
and the bounds clamp) is 2.5 > 2, yet whose record carries
`trend = stable`, because the measurement noise of -1 brings the actual
level change down to 1.5. -/
theorem c2_trend_counterexample :
    sim_total_change hueStation 100 .stable (some lightRainWeather) trendGapDraws > 2 ∧
    (simulate_river_level hueStation 100 .stable (some lightRainWeather) trendGapDraws).trend
      ≠ .rising ∧
    (simulate_river_level hueStation 100 .stable (some lightRainWeather) trendGapDraws).trend
      = .stable ∧
    SimDraws.Valid hueStation 100 .stable trendGapDraws := by
  have htrend : (simulate_river_level hueStation 100 .stable (some lightRainWeather)
      trendGapDraws).trend = .stable := by
    norm_num [simulate_river_level, sim_trend, sim_level_change, sim_new_level,
      sim_total_change, sim_smoothed_change, abs, max_def, min_def,
      get_weather_impact_advanced, weather_impact_core, get_seasonal_factor,
      get_daily_cycle_factor, hour_factor, get_tidal_effect, get_human_activities_impact,
      get_geological_factors, calculate_natural_flow_change,
      hueStation, lightRainWeather, trendGapDraws, calmDraws]
  refine ⟨?_, ?_, htrend, ?_⟩
  · norm_num [sim_total_change, get_weather_impact_advanced, weather_impact_core,
      get_seasonal_factor, get_daily_cycle_factor, hour_factor, get_tidal_effect,
      get_human_activities_impact, get_geological_factors, calculate_natural_flow_change,
      hueStation, lightRainWeather, trendGapDraws, calmDraws]
  · rw [htrend]
    exact fun h => nomatch h
  · norm_num [SimDraws.Valid, natural_decline_range, hueStation, trendGapDraws, calmDraws]
    exact fun h => nomatch h

/-- C2, amended: the trend of the produced record is derived from the
final level change `new water_level - previous water_level` (after the
smoothing cap, the measurement noise and the bounds clamp, before the
two-decimal output rounding): `rising` iff it is > 2, `falling` iff it
is < -2, and `stable` otherwise — in particular `stable` at the
boundary values 2 and -2 themselves. -/
theorem c2_trend_amended (station : StationConfig) (prev_level : ℚ) (prev_trend : Trend)
    (weather_data : Option WeatherData) (d : SimDraws) :
    ((simulate_river_level station prev_level prev_trend weather_data d).trend = .rising ↔
      2 < sim_level_change station prev_level prev_trend weather_data d) ∧
    ((simulate_river_level station prev_level prev_trend weather_data d).trend = .falling ↔
      sim_level_change station prev_level prev_trend weather_data d < -2) ∧
    ((simulate_river_level station prev_level prev_trend weather_data d).trend = .stable ↔
      (-2 ≤ sim_level_change station prev_level prev_trend weather_data d ∧
        sim_level_change station prev_level prev_trend weather_data d ≤ 2)) := by
  have ht : (simulate_river_level station prev_level prev_trend weather_data d).trend
      = sim_trend station prev_level prev_trend weather_data d := rfl
  have hs : sim_trend station prev_level prev_trend weather_data d =
      (if sim_level_change station prev_level prev_trend weather_data d > 2 then Trend.rising
       else if sim_level_change station prev_level prev_trend weather_data d < -2 then
         Trend.falling
       else Trend.stable) := rfl
  rw [ht, hs]
  split_ifs with h1 h2
  · exact ⟨⟨fun _ => h1, fun _ => rfl⟩,
      ⟨fun hc => (nomatch hc), fun hc => absurd h1 (by linarith)⟩,
      ⟨fun hc => (nomatch hc), fun hc => absurd h1 (by linarith [hc.2])⟩⟩
  · exact ⟨⟨fun hc => (nomatch hc), fun hc => absurd hc h1⟩,
      ⟨fun _ => h2, fun _ => rfl⟩,
      ⟨fun hc => (nomatch hc), fun hc => absurd h2 (by linarith [hc.1])⟩⟩
  · exact ⟨⟨fun hc => (nomatch hc), fun hc => absurd hc h1⟩,
      ⟨fun hc => (nomatch hc), fun hc => absurd hc h2⟩,
      ⟨fun _ => ⟨le_of_not_lt h2, le_of_not_lt h1⟩, fun _ => rfl⟩⟩

/-- C3: the advanced rule engine labels a row HIGH (2) iff one of the
high-risk conditions holds, MODERATE (1) iff none of them holds but a
moderate condition does, and LOW (0) otherwise; in particular HIGH takes
precedence when both a high and a moderate condition match. -/
theorem c3_rule_engine (r : FeatureRow) :
    (create_flood_labels r = 2 ↔ high_conditions r) ∧
    (create_flood_labels r = 1 ↔ (¬ high_conditions r ∧ moderate_conditions r)) ∧
    (create_flood_labels r = 0 ↔ (¬ high_conditions r ∧ ¬ moderate_conditions r)) := by
  have h : create_flood_labels r =
      (if moderate_conditions r ∧ (if high_conditions r then 2 else 0) ≠ 2 then 1
       else if high_conditions r then 2 else 0) := rfl
  rw [h]
  by_cases hh : high_conditions r <;> by_cases hm : moderate_conditions r <;>
    simp [hh, hm]

/-- C3 witness: the spec's worked example
`{rainfall_1h = 25, alert_level_exceeded = 3, water_level_ratio = 1.0,
trend_rising = 0, humidity = 70, pressure = 1013}` is labelled HIGH. -/
theorem c3_rule_engine_witness :
    create_flood_labels
      { rainfall_1h := 25, rainfall_3h := 0, humidity := 70, pressure := 1013,
        alert_level_exceeded := 3, water_level_ratio := 1, trend_rising := 0 } = 2 :=
  (c3_rule_engine
    { rainfall_1h := 25, rainfall_3h := 0, humidity := 70, pressure := 1013,
      alert_level_exceeded := 3, water_level_ratio := 1, trend_rising := 0 }).1.mpr
    (Or.inl (by norm_num))

/-- C4: the alert-level mapper computes exactly the claimed function:
base level 1 if `water_level < 180`, 2 if `< 220`, else 3; plus 1 when
the risk level is HIGH and the base is not already 3; minus 1 when the
risk level is LOW and the base is not already 1; clamped into [1, 3]. -/
theorem c4_alert_mapper (water_level : ℚ) (risk_level : String) :
    calculate_alert_level_numeric water_level risk_level
      = alert_level_claimed water_level risk_level := by
  unfold calculate_alert_level_numeric alert_level_claimed
  by_cases h1 : water_level < 180 <;> by_cases h2 : water_level < 220 <;>
    simp [h1, h2] <;> split_ifs <;> omega

/-- C4 witness: the mapper at a concrete input equals the claimed
mapping there. -/
theorem c4_alert_mapper_witness :
    calculate_alert_level_numeric 200 "HIGH" = alert_level_claimed 200 "HIGH" :=
  c4_alert_mapper 200 "HIGH"

/-- C5: for a fixed risk level the alert level is monotone non-decreasing
in the water level, and it always lies in {1, 2, 3}. -/
theorem c5_alert_monotone_range :
    (∀ (risk_level : String) (w1 w2 : ℚ), w1 ≤ w2 →
      calculate_alert_level_numeric w1 risk_level ≤ calculate_alert_level_numeric w2 risk_level) ∧
    (∀ (water_level : ℚ) (risk_level : String),
      calculate_alert_level_numeric water_level risk_level = 1 ∨
      calculate_alert_level_numeric water_level risk_level = 2 ∨
      calculate_alert_level_numeric water_level risk_level = 3) := by
  constructor
  · intro risk_level w1 w2 hw
    unfold calculate_alert_level_numeric
    by_cases hH : risk_level = "HIGH" <;> by_cases hL : risk_level = "LOW" <;>
      simp [hH, hL] <;>
      by_cases a1 : w1 < 180 <;> by_cases a2 : w1 < 220 <;>
      by_cases b1 : w2 < 180 <;> by_cases b2 : w2 < 220 <;>
      simp [a1, a2, b1, b2] <;> first | omega | linarith
  · intro water_level risk_level
    unfold calculate_alert_level_numeric
    dsimp only
    split_ifs <;> omega

/-- C5 witness: monotonicity and membership at concrete inputs. -/
theorem c5_alert_monotone_range_witness :
    calculate_alert_level_numeric 100 "HIGH" ≤ calculate_alert_level_numeric 500 "HIGH" ∧
    (calculate_alert_level_numeric 100 "HIGH" = 1 ∨
     calculate_alert_level_numeric 100 "HIGH" = 2 ∨
     calculate_alert_level_numeric 100 "HIGH" = 3) :=
  ⟨c5_alert_monotone_range.1 "HIGH" 100 500 (by norm_num),
   c5_alert_monotone_range.2 100 "HIGH"⟩

/-- C6: for every simulated transition whose previous level lies within
the global bounds, the clamped level delta — the code's `level_change`,
i.e. the new water level minus the previous one, after the smoothing
cap, the measurement noise and the bounds clamp — has absolute value at
most the smoothing cap (8 cm) plus the noise bound (1 cm); so does the
rounded `level_change` field of the produced record. -/
theorem c6_delta_bound (station : StationConfig) (prev_level : ℚ) (prev_trend : Trend)
    (weather_data : Option WeatherData) (d : SimDraws)
    (hlo : station.normal_level * (3/10) ≤ prev_level)
    (hhi : prev_level ≤ station.alert_level_3 * (6/5))
    (hvalid : SimDraws.Valid station prev_level prev_trend d) :
    |sim_level_change station prev_level prev_trend weather_data d| ≤ 9 ∧
    |(simulate_river_level station prev_level prev_trend weather_data d).level_change| ≤ 9 := by
  obtain ⟨-, -, -, -, -, -, -, -, -, -, -, -, -, -, -, hn1, hn2⟩ := hvalid
  have hnoise : |d.measurement_noise| ≤ 1 := abs_le.mpr ⟨hn1, hn2⟩
  have hsm := abs_sim_smoothed_le (sim_total_change station prev_level prev_trend weather_data d)
  have he : sim_level_change station prev_level prev_trend weather_data d =
      max (station.normal_level * (3/10))
        (min (prev_level +
            sim_smoothed_change (sim_total_change station prev_level prev_trend weather_data d) +
            d.measurement_noise)
          (station.alert_level_3 * (6/5))) - prev_level := rfl
  have hmain : |sim_level_change station prev_level prev_trend weather_data d| ≤ 9 := by
    rw [he]
    exact clamp_delta_bound hlo hhi hsm hnoise
  refine ⟨hmain, ?_⟩
  have hrec : (simulate_river_level station prev_level prev_trend weather_data d).level_change
      = round2 (sim_level_change station prev_level prev_trend weather_data d) := rfl
  obtain ⟨hm1, hm2⟩ := abs_le.mp hmain
  rw [hrec, abs_le]
  constructor
  · have h9 : round2 (-9 : ℚ) = -9 := by
      have h : ((-9 : ℤ) : ℚ) = (-9 : ℚ) := by norm_num
      rw [← h, round2_int]
    have := round2_mono hm1
    rw [h9] at this
    exact this
  · have h9 : round2 (9 : ℚ) = 9 := by
      have h : ((9 : ℤ) : ℚ) = (9 : ℚ) := by norm_num
      rw [← h, round2_int]
    have := round2_mono hm2
    rw [h9] at this
    exact this

/-- C6 witness: the delta bound at a concrete transition of the Hue
station from its normal level. -/
theorem c6_delta_bound_witness :
    |sim_level_change hueStation 100 .stable (some zeroWeather) calmDraws| ≤ 9 ∧
    |(simulate_river_level hueStation 100 .stable (some zeroWeather) calmDraws).level_change|
      ≤ 9 :=
  c6_delta_bound hueStation 100 .stable (some zeroWeather) calmDraws
    (by norm_num [hueStation]) (by norm_num [hueStation])
    (by norm_num [SimDraws.Valid, natural_decline_range, hueStation, calmDraws]
        exact fun h => nomatch h)

/-- C7: a training corpus with fewer than 10 rows makes `train_model`
return the insufficient-data sentinel `none`, whatever the fitting
backend would do. -/
theorem c7_insufficient_data (fit : List FeatureRow → Option MLModel)
    (df : List FeatureRow) (h : df.length < 10) :
    train_model fit df = none := by
  unfold train_model
  rw [if_pos h]

/-- A 9-row corpus of all-zero feature rows. -/
def nineRows : List FeatureRow :=
  List.replicate 9
    { rainfall_1h := 0, rainfall_3h := 0, humidity := 0, pressure := 0,
      alert_level_exceeded := 0, water_level_ratio := 0, trend_rising := 0 }

/-- C7 witness: a corpus of 9 rows yields the sentinel, even with a
fitting backend that always succeeds. -/
theorem c7_insufficient_data_witness :
    nineRows.length < 10 ∧
    train_model (fun _ => some { predict := fun _ => 0, predict_proba := fun _ => [1] })
      nineRows = none :=
  ⟨by norm_num [nineRows],
   c7_insufficient_data _ nineRows (by norm_num [nineRows])⟩

/-- C8: with a missing (`none`) model, `predict_flood_risk` returns
`none` for every feature list, input vector and mode flag, rather than
a prediction. -/
theorem c8_missing_model (features : List String) (weather_data : List ℚ)
    (is_advanced : Bool) :
    predict_flood_risk none features weather_data is_advanced = none := rfl

/-- C9: a supplied weather sample with `rainfall_1h = 0` and
`rainfall_3h = 0` yields a weather impact of exactly 0, whatever the
humidity, pressure and wind speed are: those only multiply the rain
impact and cannot raise the level on their own. -/
theorem c9_zero_rain_impact (w : WeatherData) (station : StationConfig)
    (d : SynthWeatherDraws) (h1 : w.rainfall_1h = 0) (h3 : w.rainfall_3h = 0) :
    get_weather_impact_advanced (some w) station d = 0 := by
  have he : get_weather_impact_advanced (some w) station d =
      weather_impact_core w.rainfall_1h w.rainfall_3h w.humidity w.pressure w.wind_speed := rfl
  rw [he, h1, h3]
  unfold weather_impact_core
  dsimp only
  norm_num

/-- C9 witness: the zero-rain weather sample produces impact 0. -/
theorem c9_zero_rain_impact_witness :
    get_weather_impact_advanced (some zeroWeather) hueStation calmDraws.weather = 0 :=
  c9_zero_rain_impact zeroWeather hueStation calmDraws.weather rfl rfl

/-- C10: the tidal factor always lies in [0.8, 1.2], and for a station
whose `tidal_effect` flag is false it is exactly 1, so the tidal delta
`(factor - 1) · normal_level · 0.5` of such a station is 0. -/
theorem c10_tidal_factor (station : StationConfig) (d : TidalDraws) :
    (4/5 ≤ get_tidal_effect station d ∧ get_tidal_effect station d ≤ 6/5) ∧
    (station.tidal_effect = false →
      get_tidal_effect station d = 1 ∧
      (get_tidal_effect station d - 1) * station.normal_level * (1/2) = 0) := by
  unfold get_tidal_effect
  by_cases h : station.tidal_effect = false
  · rw [if_pos h]
    refine ⟨⟨by norm_num, by norm_num⟩, fun _ => ⟨rfl, by ring⟩⟩
  · rw [if_neg h]
    exact ⟨⟨le_max_left _ _, max_le (by norm_num) (min_le_left _ _)⟩,
      fun hc => absurd hc h⟩

/-- C10 witness: at the (non-tidal) Hue station the factor is within
bounds and exactly 1, giving a zero tidal delta. -/
theorem c10_tidal_factor_witness :
    (4/5 ≤ get_tidal_effect hueStation calmDraws.tidal ∧
      get_tidal_effect hueStation calmDraws.tidal ≤ 6/5) ∧
    (get_tidal_effect hueStation calmDraws.tidal = 1 ∧
      (get_tidal_effect hueStation calmDraws.tidal - 1) * hueStation.normal_level * (1/2)
        = 0) :=
  ⟨(c10_tidal_factor hueStation calmDraws.tidal).1,
   (c10_tidal_factor hueStation calmDraws.tidal).2 rfl⟩
